import Mathlib

/-!
Verification of the proof-to-transaction adapter of the zkfetch-stellar-example
repository.  JavaScript strings are modelled as lists of Unicode characters,
buffers as lists of byte values, fallible functions as `Except`, and the
side-effecting workflows as functions that also return the list of observable
events (wallet derivation, file system access, attestation-service calls,
network calls) in the order the source performs them.
-/

namespace ZkStellar

/-- Model of a JavaScript string: the list of its characters. -/
abbrev Str := List Char

/-- Model of a JavaScript number that may be NaN: `none` is NaN. -/
abbrev JsNum := Option Int

/-- Numeric value of a hexadecimal digit character as consumed by the
JavaScript `parseInt` with radix 16; `none` for a non-digit. -/
def hexDigitVal (c : Char) : Option Nat :=
  if ('0' ≤ c ∧ c ≤ '9') then some (c.toNat - 48)
  else if ('a' ≤ c ∧ c ≤ 'f') then some (c.toNat - 87)
  else if ('A' ≤ c ∧ c ≤ 'F') then some (c.toNat - 55)
  else none

/-- Whitespace characters skipped by `parseInt` (the ASCII whitespace
characters together with NBSP and the BOM). -/
def isJsWhitespace (c : Char) : Bool :=
  c == ' ' || c == '\t' || c == '\n' || c == '\r' ||
  c == Char.ofNat 11 || c == Char.ofNat 12 || c == Char.ofNat 160 ||
  c == Char.ofNat 65279

/-- Maximal run of hexadecimal digits: accumulates their value, returning
`none` when no digit at all was consumed (the NaN case of `parseInt`). -/
def hexRun : Str → Nat → Bool → Option Nat
  | [], acc, seen => if seen then some acc else none
  | c :: r, acc, seen =>
    match hexDigitVal c with
    | some d => hexRun r (acc * 16 + d) true
    | none => if seen then some acc else none

/-- Value of the maximal hexadecimal-digit run at the front of a string. -/
def hexNatOfStr (s : Str) : Option Nat := hexRun s 0 false

/-- The `0x` / `0X` marker stripping performed by `parseInt` at radix 16. -/
def stripHexMarker (s : Str) : Str :=
  match s with
  | c0 :: c1 :: r => if c0 = '0' ∧ (c1 = 'x' ∨ c1 = 'X') then r else c0 :: c1 :: r
  | t => t

/-- Model of the JavaScript `parseInt(s, 16)`: skip leading whitespace, read
an optional sign, strip an optional `0x` marker, then take the value of the
maximal hexadecimal prefix; NaN (`none`) when no digit is present. -/
def jsParseIntHex (s : Str) : Option Int :=
  match s.dropWhile isJsWhitespace with
  | [] => none
  | c :: r =>
    if c = '-' then (hexNatOfStr (stripHexMarker r)).map (fun n => -(Int.ofNat n))
    else if c = '+' then (hexNatOfStr (stripHexMarker r)).map (fun n => Int.ofNat n)
    else (hexNatOfStr (stripHexMarker (c :: r))).map (fun n => Int.ofNat n)

/-- JavaScript `<` on numbers: false whenever either side is NaN. -/
def jsNumLt (a b : JsNum) : Bool :=
  match a, b with
  | some x, some y => decide (x < y)
  | _, _ => false

/-- JavaScript number-to-string coercion as used in template literals. -/
def jsNumToStr (a : JsNum) : Str :=
  match a with
  | some v => (toString v).data
  | none => ("NaN").data

/-- Model of `String.prototype.substring(a, b)`: both indices are clamped to
the string length and swapped when out of order. -/
def jsSubstring (s : Str) (a b : Nat) : Str :=
  let a1 := min a s.length
  let b1 := min b s.length
  (s.drop (min a1 b1)).take (max a1 b1 - min a1 b1)

/-- Model of `String.prototype.slice(-2)`: the last two characters, or the
whole string when it is shorter than two characters. -/
def jsSliceLast2 (s : Str) : Str := s.drop (s.length - 2)

/-- Embedding of the validated `getRecId` of `src/utils.js`
(`requestProof.js` related doc, lines 418-435): reject a non-string or empty
signature, reject signatures shorter than two characters, parse the last two
characters as hexadecimal, subtract 27 and reject values outside [0,3].
The JavaScript comparisons `recId < 0 || recId > 3` are both false on NaN, so
a NaN recovery id is returned, not rejected. -/
def getRecId (signature : Str) : Except Str JsNum :=
  if signature = [] then .error (("Signature must be a valid string").data)
  else if signature.length < 2 then
    .error (("Signature too short to contain recovery ID").data)
  else
    let recId : JsNum := (jsParseIntHex (jsSliceLast2 signature)).map (fun v => v - 27)
    if jsNumLt recId (some 0) || jsNumLt (some 3) recId then
      .error ((("Invalid recovery ID: ").data) ++ jsNumToStr recId)
    else .ok recId

/-- Embedding of the raw-variant `getRecId` (`requestProof.js` related doc,
lines 545-548): no validation at all. -/
def getRecIdRaw (signature : Str) : JsNum :=
  (jsParseIntHex (jsSliceLast2 signature)).map (fun v => v - 27)

/-- Embedding of the validated `formatSignature` of `src/utils.js`
(`requestProof.js` related doc, lines 443-454): reject empty input and input
shorter than 130 characters, then return `signature.substring(1, 130)`. -/
def formatSignature (signature : Str) : Except Str Str :=
  if signature = [] then .error (("Signature must be a valid string").data)
  else if signature.length < 130 then
    .error (("Signature too short to be valid").data)
  else .ok (jsSubstring signature 1 130)

/-- Embedding of the raw-variant `formatSignature` (`requestProof.js` related
doc, lines 550-554): `signature.substring(1, 130).substring(1, 130)` with no
validation. -/
def formatSignatureRaw (signature : Str) : Str :=
  jsSubstring (jsSubstring signature 1 130) 1 130

/-- The 132-character signature test vector of the repository test suite
(`0x` marker, 64-byte body, recovery byte `1b`). -/
def sampleTestSignature : Str :=
  ("0x1234567890abcdef1234567890abcdef1234567890abcdef1234567890abcdef1234567890abcdef1234567890abcdef1234567890abcdef1234567890abcdef1b").data

/-- The string the validated `formatSignature` actually returns on the test
vector: the character `x` of the marker followed by the 128-character body. -/
def sampleFormatted : Str :=
  ("x1234567890abcdef1234567890abcdef1234567890abcdef1234567890abcdef1234567890abcdef1234567890abcdef1234567890abcdef1234567890abcdef").data

/-- Helper: a character with a hexadecimal value is none of a given list of
non-digit characters. -/
theorem hexDigitVal_ne {c : Char} {d : Nat} (h : hexDigitVal c = some d)
    (c0 : Char) (h0 : hexDigitVal c0 = none) : c ≠ c0 := by
  intro e
  rw [e, h0] at h
  exact Option.noConfusion h

/-- Helper: whitespace characters are not hexadecimal digits. -/
theorem isJsWhitespace_hexDigitVal {c : Char} (h : isJsWhitespace c = true) :
    hexDigitVal c = none := by
  unfold isJsWhitespace at h
  simp only [Bool.or_eq_true, beq_iff_eq] at h
  rcases h with (((((((h | h) | h) | h) | h) | h) | h) | h) <;> subst h <;> decide

/-- Helper: a hexadecimal digit is not parseInt whitespace. -/
theorem hexDigitVal_not_ws {c : Char} {d : Nat} (h : hexDigitVal c = some d) :
    isJsWhitespace c = false := by
  cases hw : isJsWhitespace c
  · rfl
  · rw [isJsWhitespace_hexDigitVal hw] at h
    exact Option.noConfusion h

/-- Helper: the JavaScript comparison on two non-NaN numbers is the ordinary
integer comparison. -/
theorem jsNumLt_some_some (x y : Int) : jsNumLt (some x) (some y) = decide (x < y) := rfl

/-- Helper: `parseInt` at radix 16 on a two-hex-digit string yields the value
of the pair. -/
theorem jsParseIntHex_pair {c1 c0 : Char} {d1 d0 : Nat}
    (h1 : hexDigitVal c1 = some d1) (h0 : hexDigitVal c0 = some d0) :
    jsParseIntHex [c1, c0] = some ((16 * d1 + d0 : Nat) : Int) := by
  have hw1 : isJsWhitespace c1 = false := hexDigitVal_not_ws h1
  have hm : c1 ≠ '-' := hexDigitVal_ne h1 '-' (by decide)
  have hp : c1 ≠ '+' := hexDigitVal_ne h1 '+' (by decide)
  have hx : c0 ≠ 'x' := hexDigitVal_ne h0 'x' (by decide)
  have hX : c0 ≠ 'X' := hexDigitVal_ne h0 'X' (by decide)
  have hmark : ¬ (c1 = '0' ∧ (c0 = 'x' ∨ c0 = 'X')) := by
    rintro ⟨-, h | h⟩
    · exact hx h
    · exact hX h
  have hsm : stripHexMarker [c1, c0] = [c1, c0] := by
    show (if c1 = '0' ∧ (c0 = 'x' ∨ c0 = 'X') then ([] : Str) else [c1, c0]) = [c1, c0]
    rw [if_neg hmark]
  have hrun : hexNatOfStr [c1, c0] = some ((0 * 16 + d1) * 16 + d0) := by
    simp only [hexNatOfStr, hexRun, h1, h0, if_pos]
  unfold jsParseIntHex
  rw [List.dropWhile_cons, hw1]
  rw [if_neg (by decide : ¬ (false = true))]
  show (if c1 = '-' then Option.map (fun n => -Int.ofNat n) (hexNatOfStr (stripHexMarker [c0]))
        else if c1 = '+' then Option.map (fun n => Int.ofNat n) (hexNatOfStr (stripHexMarker [c0]))
        else Option.map (fun n => Int.ofNat n) (hexNatOfStr (stripHexMarker [c1, c0]))) =
      some ((16 * d1 + d0 : Nat) : Int)
  rw [if_neg hm, if_neg hp, hsm, hrun]
  have harith : ((0 * 16 + d1) * 16 + d0 : Nat) = 16 * d1 + d0 := by omega
  rw [harith]
  rfl

set_option maxRecDepth 100000 in
/-- C1: on the 132-character test vector of the repository test suite, the
validated `formatSignature` succeeds with a 129-character string that starts
with the character `x` of the `0x` marker, not with the 128-hex-character
body the claim (and the test, which expects length 128) requires; and the
raw variant, on an input shorter than 130 characters, returns a string
instead of failing with an invalid-signature error. -/
theorem formatSignature_at_test_vector :
    formatSignature sampleTestSignature = Except.ok sampleFormatted
    ∧ sampleFormatted.length = 129
    ∧ sampleFormatted.head? = some 'x'
    ∧ formatSignatureRaw (("short").data) = (("ort").data) := by
  refine ⟨rfl, by decide, rfl, rfl⟩

/-- C4: for every signature of at least two characters whose last two
characters are hexadecimal digits with values `d1` and `d0`, the validated
`getRecId` computes `16 * d1 + d0 - 27`, returns it when it lies in [0, 3]
and fails with the invalid-recovery-id error otherwise; and every input
shorter than two characters fails. -/
theorem getRecId_spec :
    (∀ (s : Str) (c1 c0 : Char) (d1 d0 : Nat),
       2 ≤ s.length → jsSliceLast2 s = [c1, c0] →
       hexDigitVal c1 = some d1 → hexDigitVal c0 = some d0 →
       getRecId s =
         (if (((16 * d1 + d0 : Nat) : Int) - 27) < 0 ∨
             3 < (((16 * d1 + d0 : Nat) : Int) - 27) then
            Except.error ((("Invalid recovery ID: ").data) ++
              jsNumToStr (some (((16 * d1 + d0 : Nat) : Int) - 27)))
          else Except.ok (some (((16 * d1 + d0 : Nat) : Int) - 27))))
    ∧ (∀ s : Str, s.length < 2 → ∃ e, getRecId s = Except.error e) := by
  constructor
  · intro s c1 c0 d1 d0 h2 hlast h1 h0
    have hne : ¬ s = [] := by
      intro e
      rw [e] at h2
      simp at h2
    have hlt : ¬ s.length < 2 := by omega
    unfold getRecId
    rw [if_neg hne, if_neg hlt, hlast, jsParseIntHex_pair h1 h0]
    simp only [Option.map_some']
    by_cases hv : (((16 * d1 + d0 : Nat) : Int) - 27) < 0 ∨
        3 < (((16 * d1 + d0 : Nat) : Int) - 27)
    · rw [if_pos hv]
      have hb : (jsNumLt (some (((16 * d1 + d0 : Nat) : Int) - 27)) (some 0) ||
          jsNumLt (some 3) (some (((16 * d1 + d0 : Nat) : Int) - 27))) = true := by
        rw [jsNumLt_some_some, jsNumLt_some_some]
        rcases hv with hv1 | hv2
        · rw [decide_eq_true hv1, Bool.true_or]
        · rw [decide_eq_true hv2, Bool.or_true]
      rw [if_pos hb]
    · rw [if_neg hv]
      have hb : (jsNumLt (some (((16 * d1 + d0 : Nat) : Int) - 27)) (some 0) ||
          jsNumLt (some 3) (some (((16 * d1 + d0 : Nat) : Int) - 27))) = false := by
        rw [jsNumLt_some_some, jsNumLt_some_some]
        rcases not_or.mp hv with ⟨hv1, hv2⟩
        rw [decide_eq_false hv1, decide_eq_false hv2, Bool.or_false]
      rw [if_neg (by rw [hb]; exact (by decide : ¬ (false = true)))]
  · intro s h
    by_cases hs : s = []
    · exact ⟨("Signature must be a valid string").data, by unfold getRecId; rw [if_pos hs]⟩
    · exact ⟨("Signature too short to contain recovery ID").data, by
        unfold getRecId; rw [if_neg hs, if_pos h]⟩

/-- C4 witness: a signature ending in `1c` yields recovery id 1, and a
one-character input fails. -/
theorem getRecId_spec_witness :
    getRecId (("ab1c").data) = Except.ok (some 1)
    ∧ (∃ e, getRecId (("a").data) = Except.error e) := by
  constructor
  · have h := getRecId_spec.1 (("ab1c").data) '1' 'c' 1 12 (by decide) (by decide)
      (by decide) (by decide)
    rw [h, if_neg (by decide)]
    norm_num
  · exact getRecId_spec.2 (("a").data) (by decide)

/-- C9: the validated `getRecId` depends only on the final two characters of
a signature of length at least two: any two such signatures with the same
last two characters produce identical results, whether success or failure. -/
theorem getRecId_suffix_only (s t : Str) (hs : 2 ≤ s.length) (ht : 2 ≤ t.length)
    (h : jsSliceLast2 s = jsSliceLast2 t) : getRecId s = getRecId t := by
  have hs0 : ¬ s = [] := by
    intro e
    rw [e] at hs
    simp at hs
  have ht0 : ¬ t = [] := by
    intro e
    rw [e] at ht
    simp at ht
  unfold getRecId
  rw [if_neg hs0, if_neg ht0, if_neg (by omega : ¬ s.length < 2),
    if_neg (by omega : ¬ t.length < 2), h]

/-- C9 witness: two different signatures ending in the same two characters
yield the same recovery-id result. -/
theorem getRecId_suffix_only_witness :
    getRecId (("aaaa1b").data) = getRecId (("ffffffffff1b").data) :=
  getRecId_suffix_only (("aaaa1b").data) (("ffffffffff1b").data)
    (by decide) (by decide) (by decide)

/-- UTF-8 encoding of a single character. -/
def utf8Char (c : Char) : List Nat :=
  let n := c.toNat
  if n < 128 then [n]
  else if n < 2048 then [192 + n / 64, 128 + n % 64]
  else if n < 65536 then [224 + n / 4096, 128 + (n / 64) % 64, 128 + n % 64]
  else [240 + n / 262144, 128 + (n / 4096) % 64, 128 + (n / 64) % 64, 128 + n % 64]

/-- UTF-8 encoding of a string: the byte content of `Buffer.from(string)`. -/
def utf8Bytes : Str → List Nat
  | [] => []
  | c :: r => utf8Char c ++ utf8Bytes r

/-- Number of UTF-16 code units of a string: the JavaScript `length`. -/
def jsLength : Str → Nat
  | [] => 0
  | c :: r => (if c.toNat < 65536 then 1 else 2) + jsLength r

/-- The message-signing marker prepended by `getHash`. -/
def ethSignedMessageHeader : Str := ("\x19Ethereum Signed Message:\n").data

/-- Node hexadecimal decoding as used by `Buffer.from(string, hex)`: bytes
are read as hexadecimal pairs, stopping at the first incomplete or invalid
pair. -/
def jsBufferFromHex : Str → List Nat
  | c1 :: c2 :: r =>
    (match hexDigitVal c1, hexDigitVal c2 with
     | some d1, some d2 => (16 * d1 + d2) :: jsBufferFromHex r
     | _, _ => [])
  | _ => []

/-- The byte string handed to keccak256 by `getHash`: the UTF-8 bytes of the
string concatenation of the marker, the JavaScript string length of the
serialized claim, and the serialized claim itself. -/
def getHashMessageBytes (s : Str) : List Nat :=
  utf8Bytes (ethSignedMessageHeader ++ (Nat.repr (jsLength s)).data ++ s)

/-- Embedding of the validated `getHash` of `src/utils.js` (`requestProof.js`
related doc, lines 491-510), parametrized by the external keccak256
implementation, which returns a 0x-marked hexadecimal string: reject an empty
(or non-string) input, hash the marker-wrapped message bytes, then strip the
two marker characters of the digest and decode it to bytes. -/
def getHash (keccak256 : List Nat → Str) (serializedClaim : Str) : Except Str (List Nat) :=
  if serializedClaim = [] then
    .error (("Serialized claim must be a valid string").data)
  else
    .ok (jsBufferFromHex ((keccak256 (getHashMessageBytes serializedClaim)).drop 2))

/-- Restatement of the hashed byte string in the words of the specification,
for comparison with `getHashMessageBytes`: the marker bytes, then the ASCII
decimal length in bytes of the serialized claim, then the claim bytes. -/
def specHashMessageBytes (s : Str) : List Nat :=
  utf8Bytes ethSignedMessageHeader ++
    utf8Bytes ((Nat.repr (utf8Bytes s).length).data) ++ utf8Bytes s

/-- Predicate: every character of the string is ASCII. -/
def allAscii (s : Str) : Prop := ∀ c ∈ s, c.toNat < 128

/-- Helper: UTF-8 encoding distributes over concatenation. -/
theorem utf8Bytes_append (a b : Str) : utf8Bytes (a ++ b) = utf8Bytes a ++ utf8Bytes b := by
  induction a with
  | nil => rfl
  | cons c r ih =>
    show utf8Char c ++ utf8Bytes (r ++ b) = (utf8Char c ++ utf8Bytes r) ++ utf8Bytes b
    rw [ih, List.append_assoc]

/-- Helper: on an ASCII string the JavaScript length and the UTF-8 byte
length agree. -/
theorem allAscii_jsLength : ∀ s : Str, allAscii s → jsLength s = (utf8Bytes s).length
  | [], _ => rfl
  | c :: r, h => by
    have hc : c.toNat < 128 := h c (by simp)
    show (if c.toNat < 65536 then 1 else 2) + jsLength r = (utf8Char c ++ utf8Bytes r).length
    have hu : utf8Char c = [c.toNat] := by unfold utf8Char; rw [if_pos hc]
    rw [if_pos (by omega), hu,
      allAscii_jsLength r (fun x hx => h x (by simp [hx]))]
    simp only [List.length_append, List.length_cons, List.length_nil]

/-- Helper: decoding an all-hexadecimal string yields half as many bytes as
characters. -/
theorem jsBufferFromHex_length : ∀ s : Str, (∀ c ∈ s, (hexDigitVal c).isSome) →
    (jsBufferFromHex s).length = s.length / 2
  | [], _ => rfl
  | [_], _ => by
    show ([] : List Nat).length = 1 / 2
    decide
  | c1 :: c2 :: r, h => by
    rcases Option.isSome_iff_exists.mp (h c1 (by simp)) with ⟨d1, hd1⟩
    rcases Option.isSome_iff_exists.mp (h c2 (by simp)) with ⟨d2, hd2⟩
    show (match hexDigitVal c1, hexDigitVal c2 with
      | some d1, some d2 => (16 * d1 + d2) :: jsBufferFromHex r
      | _, _ => []).length = (r.length + 1 + 1) / 2
    rw [hd1, hd2]
    simp only [List.length_cons]
    rw [jsBufferFromHex_length r (fun c hc => h c (by simp [hc]))]
    omega

/-- C2 counterexample: on the one-character serialized claim `é` the byte
string the code hashes announces length 1 (the JavaScript string length),
whereas the byte string described by the claim announces the UTF-8 byte
length 2, so the two differ. -/
theorem getHashMessage_not_byte_length :
    getHashMessageBytes [Char.ofNat 233] ≠ specHashMessageBytes [Char.ofNat 233] := by
  decide

/-- C2 (amended): `getHash` hashes exactly the marker, the ASCII decimal
JavaScript string length (UTF-16 code units, which equals the byte length
whenever the claim is ASCII, as every serialized claim produced by
`getSerializedClaim` from hex identifiers and decimal integers is) and the
serialized claim, concatenated without separators; under a well-formed
keccak256 the digest has exactly 32 bytes; and the empty input fails. -/
theorem getHash_spec (keccak256 : List Nat → Str) :
    (∀ s : Str, s ≠ [] →
       getHash keccak256 s =
         Except.ok (jsBufferFromHex ((keccak256 (utf8Bytes ethSignedMessageHeader ++
           utf8Bytes ((Nat.repr (jsLength s)).data) ++ utf8Bytes s)).drop 2))
       ∧ (allAscii s → getHashMessageBytes s = specHashMessageBytes s))
    ∧ (∀ s : Str, s ≠ [] →
       (∀ m : List Nat, ((keccak256 m).drop 2).length = 64 ∧
          ∀ c ∈ (keccak256 m).drop 2, (hexDigitVal c).isSome) →
       ∃ d, getHash keccak256 s = Except.ok d ∧ d.length = 32)
    ∧ getHash keccak256 [] =
        Except.error (("Serialized claim must be a valid string").data) := by
  refine ⟨?_, ?_, ?_⟩
  · intro s hs
    have hmsg : getHashMessageBytes s = utf8Bytes ethSignedMessageHeader ++
        utf8Bytes ((Nat.repr (jsLength s)).data) ++ utf8Bytes s := by
      unfold getHashMessageBytes
      rw [utf8Bytes_append, utf8Bytes_append]
    constructor
    · unfold getHash
      rw [if_neg hs, hmsg]
    · intro ha
      rw [hmsg]
      unfold specHashMessageBytes
      rw [allAscii_jsLength s ha]
  · intro s hs hk
    refine ⟨jsBufferFromHex ((keccak256 (getHashMessageBytes s)).drop 2), ?_, ?_⟩
    · unfold getHash
      rw [if_neg hs]
    · rw [jsBufferFromHex_length _ (hk (getHashMessageBytes s)).2,
        (hk (getHashMessageBytes s)).1]
  · unfold getHash
    rw [if_pos rfl]

/-- A well-formed sample keccak256 output: the 0x marker and 64 hexadecimal
characters. -/
def sampleKeccakHex : Str :=
  ("0xaaaaaaaaaaaaaaaaaaaaaaaaaaaaaaaaaaaaaaaaaaaaaaaaaaaaaaaaaaaaaaaa").data

/-- C2 witness: under a well-formed constant keccak256, `getHash` on a
one-character claim returns a 32-byte digest. -/
theorem getHash_spec_witness :
    ∃ d, getHash (fun _ => sampleKeccakHex) (("x").data) = Except.ok d ∧ d.length = 32 :=
  (getHash_spec (fun _ => sampleKeccakHex)).2.1 (("x").data) (by decide)
    (fun m => by decide)

/-- Model of the `claim` record inside a transformed attestation.  Each field
is the JavaScript string coercion of its value (`timestampS` and `epoch`
integers appear through their base-10 decimal strings, exactly as the
JavaScript string concatenation renders them); `none` models both a missing
and a null field. -/
structure ClaimRec where
  identifier : Option Str
  owner : Option Str
  timestampS : Option Str
  epoch : Option Str
deriving DecidableEq

/-- Model of the `signedClaim` record of a transformed attestation. -/
structure SignedClaimRec where
  claim : Option ClaimRec
  signatures : List Str
deriving DecidableEq

/-- Model of a transformed attestation as consumed by the claim adapter. -/
structure ProofRec where
  signedClaim : Option SignedClaimRec
deriving DecidableEq

/-- Embedding of the validated `getSerializedClaim` of `src/utils.js`
(`requestProof.js` related doc, lines 462-483): reject a proof without
`signedClaim.claim`, reject the first of the four required fields that is
missing or null, otherwise join the four fields with single newlines. -/
def getSerializedClaim (proof : ProofRec) : Except Str Str :=
  match proof.signedClaim with
  | none => .error (("Invalid proof structure: missing signedClaim.claim").data)
  | some sc =>
    match sc.claim with
    | none => .error (("Invalid proof structure: missing signedClaim.claim").data)
    | some c =>
      match c.identifier with
      | none => .error ((("Missing required claim field: ").data) ++ ("identifier").data)
      | some idv =>
        match c.owner with
        | none => .error ((("Missing required claim field: ").data) ++ ("owner").data)
        | some ow =>
          match c.timestampS with
          | none => .error ((("Missing required claim field: ").data) ++ ("timestampS").data)
          | some ts =>
            match c.epoch with
            | none => .error ((("Missing required claim field: ").data) ++ ("epoch").data)
            | some ep =>
              .ok (idv ++ ("\n").data ++ ow ++ ("\n").data ++ ts ++ ("\n").data ++ ep)

/-- C3: on a proof whose claim has all four required fields,
`getSerializedClaim` returns exactly the newline-joined concatenation in the
fixed order identifier, owner, timestampS, epoch with no trailing separator,
and when any of the four fields is missing or null it fails with the
missing-required-claim-field error naming one of the four fields. -/
theorem getSerializedClaim_spec (p : ProofRec) (sc : SignedClaimRec) (c : ClaimRec)
    (hp : p.signedClaim = some sc) (hc : sc.claim = some c) :
    (∀ idv ow ts ep, c.identifier = some idv → c.owner = some ow →
       c.timestampS = some ts → c.epoch = some ep →
       getSerializedClaim p =
         Except.ok (idv ++ ("\n").data ++ ow ++ ("\n").data ++ ts ++ ("\n").data ++ ep))
    ∧ ((c.identifier = none ∨ c.owner = none ∨ c.timestampS = none ∨ c.epoch = none) →
       ∃ f, f ∈ [("identifier").data, ("owner").data, ("timestampS").data, ("epoch").data] ∧
         getSerializedClaim p =
           Except.error ((("Missing required claim field: ").data) ++ f)) := by
  constructor
  · intro idv ow ts ep hi ho ht he
    simp only [getSerializedClaim, hp, hc, hi, ho, ht, he]
  · intro hmiss
    cases hid : c.identifier with
    | none =>
      exact ⟨("identifier").data, by simp,
        by simp only [getSerializedClaim, hp, hc, hid]⟩
    | some idv =>
      cases how : c.owner with
      | none =>
        exact ⟨("owner").data, by simp,
          by simp only [getSerializedClaim, hp, hc, hid, how]⟩
      | some ow =>
        cases hts : c.timestampS with
        | none =>
          exact ⟨("timestampS").data, by simp,
            by simp only [getSerializedClaim, hp, hc, hid, how, hts]⟩
        | some ts =>
          cases hep : c.epoch with
          | none =>
            exact ⟨("epoch").data, by simp,
              by simp only [getSerializedClaim, hp, hc, hid, how, hts, hep]⟩
          | some ep =>
            rcases hmiss with h | h | h | h
            · rw [hid] at h; exact Option.noConfusion h
            · rw [how] at h; exact Option.noConfusion h
            · rw [hts] at h; exact Option.noConfusion h
            · rw [hep] at h; exact Option.noConfusion h

/-- The claim fixture of the repository test suite. -/
def sampleClaim : ClaimRec :=
  ⟨some (("0x123").data), some (("0x456").data),
   some (("1234567890").data), some (("1").data)⟩

/-- A proof holding the claim fixture of the repository test suite. -/
def sampleProof : ProofRec := ⟨some ⟨some sampleClaim, []⟩⟩

/-- A proof whose claim is missing the owner field. -/
def sampleProofNoOwner : ProofRec :=
  ⟨some ⟨some ⟨some (("0x123").data), none,
    some (("1234567890").data), some (("1").data)⟩, []⟩⟩

/-- C3 witness: the test-suite claim fixture serializes to the expected
newline-joined string, and a claim with a null owner fails with the
missing-field error. -/
theorem getSerializedClaim_spec_witness :
    getSerializedClaim sampleProof = Except.ok (("0x123\n0x456\n1234567890\n1").data)
    ∧ (∃ f, f ∈ [("identifier").data, ("owner").data, ("timestampS").data, ("epoch").data] ∧
        getSerializedClaim sampleProofNoOwner =
          Except.error ((("Missing required claim field: ").data) ++ f)) := by
  constructor
  · have h := (getSerializedClaim_spec sampleProof ⟨some sampleClaim, []⟩ sampleClaim
      rfl rfl).1 (("0x123").data) (("0x456").data) (("1234567890").data) (("1").data)
      rfl rfl rfl rfl
    rw [h]
    rfl
  · exact (getSerializedClaim_spec sampleProofNoOwner _ _ rfl rfl).2
      (Or.inr (Or.inl rfl))

/-- The ASCII apostrophe character appearing inside JavaScript messages. -/
def sq : Char := Char.ofNat 39

/-- Soroban contract-call argument values built by the submitters. -/
inductive ScVal where
  | bytes (b : List Nat)
  | u32 (n : JsNum)
deriving DecidableEq

/-- Observable events of the workflows, recorded in execution order. -/
inductive Event where
  | walletDerive
  | fsExistsCheck (p : Str)
  | fsRead (p : Str)
  | fsWrite (p : Str)
  | zkFetchCall (url : Str)
  | netLoadAccount
  | netGetAccount
  | buildTx (args : List ScVal)
  | netPrepareTx
  | netSendTx
deriving DecidableEq

/-- Classification of the events that reach the network. -/
def isNetworkEvent : Event → Bool
  | .zkFetchCall _ => true
  | .netLoadAccount => true
  | .netGetAccount => true
  | .netPrepareTx => true
  | .netSendTx => true
  | _ => false

/-- The verification payload assembled by `prepareProofData`. -/
structure Prepared where
  message : List Nat
  signature : List Nat
  recId : JsNum
deriving DecidableEq

/-- JavaScript call `getRecId(signatures[0])` where the element may be
undefined: an undefined argument fails the falsiness guard exactly like the
empty string. -/
def getRecIdJs : Option Str → Except Str JsNum
  | none => .error (("Signature must be a valid string").data)
  | some s => getRecId s

/-- JavaScript call `formatSignature(signatures[0])` where the element may be
undefined. -/
def formatSignatureJs : Option Str → Except Str Str
  | none => .error (("Signature must be a valid string").data)
  | some s => formatSignature s

/-- Embedding of `prepareProofData` of `src/verifyProof.js` (lines 71-89 and
identically lines 288-306) in state-passing form: every statement of the
source only reads the attestation object, so each step passes it through; the
try/catch wraps any adapter error, and a proof without `signedClaim` fails
with the JavaScript property-access TypeError message. -/
def prepareProofDataSt (keccak256 : List Nat → Str) (proof : ProofRec) :
    (Except Str Prepared) × ProofRec :=
  match proof.signedClaim with
  | none =>
    (.error ((("Failed to prepare proof data: ").data) ++
      (("Cannot read properties of undefined (reading ").data) ++ [sq] ++
      ("signatures").data ++ [sq] ++ (")").data), proof)
  | some sc =>
    match getRecIdJs sc.signatures.head? with
    | .error e => (.error ((("Failed to prepare proof data: ").data) ++ e), proof)
    | .ok recId =>
      match formatSignatureJs sc.signatures.head? with
      | .error e => (.error ((("Failed to prepare proof data: ").data) ++ e), proof)
      | .ok fsig =>
        match getSerializedClaim proof with
        | .error e => (.error ((("Failed to prepare proof data: ").data) ++ e), proof)
        | .ok ser =>
          match getHash keccak256 ser with
          | .error e => (.error ((("Failed to prepare proof data: ").data) ++ e), proof)
          | .ok msg => (.ok ⟨msg, jsBufferFromHex fsig, recId⟩, proof)

/-- The result component of `prepareProofDataSt`. -/
def prepareProofData (keccak256 : List Nat → Str) (proof : ProofRec) : Except Str Prepared :=
  (prepareProofDataSt keccak256 proof).1

/-- The parsed content of a proof file: `none` signatures models a missing or
null field, `some` holds the parsed array. -/
structure ProofJson where
  signatures : Option (List Str)
deriving DecidableEq

/-- Environment of the verification workflow: the outcomes of the external
collaborators (HD wallet, file system, JSON parser, on-chain transform,
keccak256 and the Stellar RPC endpoints). -/
structure VerifyEnv where
  wallet : Except Str Str
  fileExists : Bool
  fileParse : Except Str ProofJson
  transform : ProofJson → ProofRec
  keccak256 : List Nat → Str
  getAccount : Except Str Unit
  prepareTx : Except Str Unit
  sendTx : Except Str Str

/-- Embedding of `loadProof` of `src/verifyProof.js` (lines 43-64 and
identically lines 260-281): check existence, read and parse the file, fail
when `signatures` is missing or empty, then apply the external on-chain
transform; the try/catch wraps every error. -/
def loadProofM (env : VerifyEnv) (proofPath : Str) : (Except Str ProofRec) × List Event :=
  if env.fileExists = false then
    (.error ((("Failed to load proof: Proof file not found: ").data) ++ proofPath),
     [Event.fsExistsCheck proofPath])
  else
    match env.fileParse with
    | .error e =>
      (.error ((("Failed to load proof: ").data) ++ e),
       [Event.fsExistsCheck proofPath, Event.fsRead proofPath])
    | .ok pj =>
      match pj.signatures with
      | none =>
        (.error (("Failed to load proof: Invalid proof: missing signatures").data),
         [Event.fsExistsCheck proofPath, Event.fsRead proofPath])
      | some [] =>
        (.error (("Failed to load proof: Invalid proof: missing signatures").data),
         [Event.fsExistsCheck proofPath, Event.fsRead proofPath])
      | some (_ :: _) =>
        (.ok (env.transform pj), [Event.fsExistsCheck proofPath, Event.fsRead proofPath])

/-- Embedding of the first `submitVerificationTransaction` of
`src/verifyProof.js` (lines 97-157): load the account, build the transaction
with unchecked `nativeToScVal` arguments, prepare, sign and send it. -/
def submitVerificationTransactionV1 (env : VerifyEnv) (proofData : Prepared) :
    (Except Str Str) × List Event :=
  match env.getAccount with
  | .error e =>
    (.error ((("Failed to submit transaction: ").data) ++ e), [Event.netLoadAccount])
  | .ok _ =>
    match env.prepareTx with
    | .error e =>
      (.error ((("Failed to submit transaction: ").data) ++ e),
       [Event.netLoadAccount,
        Event.buildTx [ScVal.bytes proofData.message, ScVal.bytes proofData.signature,
          ScVal.u32 proofData.recId], Event.netPrepareTx])
    | .ok _ =>
      match env.sendTx with
      | .error e =>
        (.error ((("Failed to submit transaction: ").data) ++ e),
         [Event.netLoadAccount,
          Event.buildTx [ScVal.bytes proofData.message, ScVal.bytes proofData.signature,
            ScVal.u32 proofData.recId], Event.netPrepareTx, Event.netSendTx])
      | .ok h =>
        (.ok h,
         [Event.netLoadAccount,
          Event.buildTx [ScVal.bytes proofData.message, ScVal.bytes proofData.signature,
            ScVal.u32 proofData.recId], Event.netPrepareTx, Event.netSendTx])

/-- Embedding of `bytesN` of `src/verifyProof.js` (lines 227-237): the input
is a buffer by construction here, so only the width check remains; a buffer
of the wrong width is rejected with the expected-bytes error. -/
def bytesN (buffer : List Nat) (length : Nat) : Except Str ScVal :=
  if buffer.length ≠ length then
    .error ((("Expected ").data) ++ (Nat.repr length).data ++
      ((" bytes, got ").data) ++ (Nat.repr buffer.length).data)
  else .ok (.bytes buffer)

/-- Embedding of the second `submitVerificationTransaction` of
`src/verifyProof.js` (lines 316-368): fetch the account over RPC, then build
the contract call with `bytesN`-guarded arguments — the digest checked to be
32 bytes and the signature buffer truncated to its first 64 bytes checked to
be 64 bytes — and prepare, sign and send the transaction; a `bytesN` throw
aborts before the transaction is built. -/
def submitVerificationTransactionV2 (env : VerifyEnv) (proofData : Prepared) :
    (Except Str Str) × List Event :=
  match env.getAccount with
  | .error e =>
    (.error ((("Failed to submit transaction: ").data) ++ e), [Event.netGetAccount])
  | .ok _ =>
    match bytesN proofData.message 32 with
    | .error e =>
      (.error ((("Failed to submit transaction: ").data) ++ e), [Event.netGetAccount])
    | .ok a1 =>
      match bytesN (proofData.signature.take 64) 64 with
      | .error e =>
        (.error ((("Failed to submit transaction: ").data) ++ e), [Event.netGetAccount])
      | .ok a2 =>
        match env.prepareTx with
        | .error e =>
          (.error ((("Failed to submit transaction: ").data) ++ e),
           [Event.netGetAccount, Event.buildTx [a1, a2, ScVal.u32 proofData.recId],
            Event.netPrepareTx])
        | .ok _ =>
          match env.sendTx with
          | .error e =>
            (.error ((("Failed to submit transaction: ").data) ++ e),
             [Event.netGetAccount, Event.buildTx [a1, a2, ScVal.u32 proofData.recId],
              Event.netPrepareTx, Event.netSendTx])
          | .ok h =>
            (.ok h,
             [Event.netGetAccount, Event.buildTx [a1, a2, ScVal.u32 proofData.recId],
              Event.netPrepareTx, Event.netSendTx])

/-- Embedding of the first `verifyProof` of `src/verifyProof.js` (lines
163-186): create the wallet first, then load the proof, prepare the payload
and submit the transaction. -/
def verifyProofV1 (env : VerifyEnv) (proofPath : Str) : (Except Str Str) × List Event :=
  match env.wallet with
  | .error e =>
    (.error ((("Failed to create Stellar wallet: ").data) ++ e), [Event.walletDerive])
  | .ok _ =>
    match loadProofM env proofPath with
    | (.error e, t) => (.error e, Event.walletDerive :: t)
    | (.ok proof, t) =>
      match prepareProofData env.keccak256 proof with
      | .error e => (.error e, Event.walletDerive :: t)
      | .ok pd =>
        ((submitVerificationTransactionV1 env pd).1,
         Event.walletDerive :: (t ++ (submitVerificationTransactionV1 env pd).2))

/-- Embedding of the second `verifyProof` of `src/verifyProof.js` (lines
375-399): load the proof first and prepare the payload, create the wallet
only afterwards, then submit the transaction. -/
def verifyProofV2 (env : VerifyEnv) (proofPath : Str) : (Except Str Str) × List Event :=
  match loadProofM env proofPath with
  | (.error e, t) => (.error e, t)
  | (.ok proof, t) =>
    match prepareProofData env.keccak256 proof with
    | .error e => (.error e, t)
    | .ok pd =>
      match env.wallet with
      | .error e =>
        (.error ((("Failed to create Stellar wallet: ").data) ++ e),
         t ++ [Event.walletDerive])
      | .ok _ =>
        ((submitVerificationTransactionV2 env pd).1,
         t ++ [Event.walletDerive] ++ (submitVerificationTransactionV2 env pd).2)

/-- Model of the file system as seen through `fs.existsSync` and
`fs.statSync(...).isDirectory()`. -/
structure FS where
  pathExists : Str → Bool
  isDirectory : Str → Bool

/-- Scanning loop of the Node `path.dirname` implementation: walking indices
downward to 1, it returns the index of the separator immediately before the
basename, or `none` when there is none. -/
def dnLoop (p : Str) : Nat → Bool → Option Nat
  | 0, _ => none
  | j + 1, m =>
    if p.getD (j + 1) ' ' = '/' then
      (if m then dnLoop p j m else some (j + 1))
    else dnLoop p j false

/-- Model of the POSIX `path.dirname`. -/
def dirname (p : Str) : Str :=
  match p with
  | [] => ((".").data)
  | c0 :: _ =>
    match dnLoop p (p.length - 1) true with
    | none => if c0 = '/' then (("/").data) else ((".").data)
    | some e =>
      if c0 = '/' ∧ e = 1 then (("//").data)
      else p.take e

/-- Embedding of `validateOutputPath` of `src/requestProof.js` (lines 18-31):
reject a non-string or empty path, then require the parent directory to
exist and to be a directory. -/
def validateOutputPath (fs : FS) (outputPath : Str) : Except Str Unit :=
  if outputPath = [] then .error (("Output path must be a valid string").data)
  else if fs.pathExists (dirname outputPath) = false then
    .error ((("Directory does not exist: ").data) ++ dirname outputPath)
  else if fs.isDirectory (dirname outputPath) = false then
    .error ((("Path is not a directory: ").data) ++ dirname outputPath)
  else .ok ()

/-- Environment of the request workflow: the file system, the outcome of the
Reclaim client constructor, the attestation service keyed by URL, and the
outcome of the proof-file write.  The attestation object type is abstract. -/
structure RequestEnv (α : Type) where
  fs : FS
  client : Except Str Unit
  zkFetch : Str → Except Str α
  save : Except Str Unit

/-- The CoinGecko Stellar price endpoint of the configuration. -/
def coingeckoUrl : Str :=
  ("https://api.coingecko.com/api/v3/simple/price?ids=stellar&vs_currencies=usd").data

/-- The Trading Economics endpoint of the configuration. -/
def tradingEconomicsUrl : Str := ("https://tradingeconomics.com/").data

/-- The Forbes real-time billionaires endpoint of the configuration. -/
def forbesUrl : Str :=
  ("https://www.forbes.com/forbesapi/person/rtb/0/-estWorthPrev/true.json?fields=rank,personName,finalWorth").data

/-- The AccuWeather NYC endpoint of the configuration. -/
def accuweatherUrl : Str :=
  ("https://www.accuweather.com/en/us/new-york/10021/weather-forecast/349727").data

/-- The Goal.com live-scores endpoint of the configuration. -/
def goalUrl : Str := ("https://www.goal.com/en-in/live-scores").data

/-- The unknown-proof-type error message of `requestProof`: it names the
supplied identifier and lists the five valid choices, each in single
quotes. -/
def unknownProofTypeMsg (proofType : Str) : Str :=
  ("Unknown proof type: ").data ++ proofType ++
  (". Supported types: ").data ++ [sq] ++ ("stellar").data ++ [sq] ++
  (", ").data ++ [sq] ++ ("trading-economics").data ++ [sq] ++
  (", ").data ++ [sq] ++ ("forbes").data ++ [sq] ++
  (", ").data ++ [sq] ++ ("accuweather").data ++ [sq] ++
  (", ").data ++ [sq] ++ ("goal").data ++ [sq]

/-- Embedding of `requestProof` of `src/requestProof.js` (lines 337-378):
validate the output path, create the Reclaim client, dispatch on the proof
type (the `switch`, rendered as an equality chain selecting the endpoint and
the per-source error wrapper of the generator functions), call the
attestation service, and save the proof; the `default` branch fails with the
unknown-proof-type error before any `zkFetch` call. -/
def requestProof {α : Type} (env : RequestEnv α) (outputPath proofType : Str) :
    (Except Str α) × List Event :=
  match validateOutputPath env.fs outputPath with
  | .error e => (.error e, [])
  | .ok _ =>
    match env.client with
    | .error e => (.error ((("Failed to create Reclaim client: ").data) ++ e), [])
    | .ok _ =>
      match
        (if proofType = ("stellar").data then
          some (coingeckoUrl, ("Failed to generate proof: ").data)
        else if proofType = ("trading-economics").data then
          some (tradingEconomicsUrl, ("Failed to generate Trading Economics proof: ").data)
        else if proofType = ("forbes").data then
          some (forbesUrl, ("Failed to generate Forbes proof: ").data)
        else if proofType = ("accuweather").data then
          some (accuweatherUrl, ("Failed to generate AccuWeather proof: ").data)
        else if proofType = ("goal").data then
          some (goalUrl, ("Failed to generate Goal.com proof: ").data)
        else none)
      with
      | none => (.error (unknownProofTypeMsg proofType), [])
      | some (url, wrapMsg) =>
        match env.zkFetch url with
        | .error e => (.error (wrapMsg ++ e), [Event.zkFetchCall url])
        | .ok proof =>
          match env.save with
          | .error e =>
            (.error ((("Failed to save proof: ").data) ++ e),
             [Event.zkFetchCall url, Event.fsWrite outputPath])
          | .ok _ => (.ok proof, [Event.zkFetchCall url, Event.fsWrite outputPath])

/-- C8: preparing the verification payload leaves the attestation object
unchanged in every field, for every attestation and on both the success and
the failure paths: every statement of `prepareProofData` only reads the
proof, so the state-passing embedding returns it untouched. -/
theorem prepareProofData_no_mutation (keccak256 : List Nat → Str) (proof : ProofRec) :
    (prepareProofDataSt keccak256 proof).2 = proof := by
  unfold prepareProofDataSt
  repeat' split
  all_goals rfl

/-- The parsed proof-file content with an empty signatures array. -/
def emptySigJson : ProofJson := ⟨some []⟩

/-- A verification environment whose proof file exists and parses to an
empty signatures array, with every collaborator succeeding. -/
def envEmptySignatures : VerifyEnv :=
  { wallet := .ok (("GPUB").data)
    fileExists := true
    fileParse := .ok emptySigJson
    transform := fun _ => ⟨none⟩
    keccak256 := fun _ => sampleKeccakHex
    getAccount := .ok ()
    prepareTx := .ok ()
    sendTx := .ok (("txhash").data) }

/-- The default proof-file path of the configuration. -/
def samplePath : Str := ("./src/proof.json").data

/-- C5 counterexample: on a proof file with an empty signatures array, the
first `verifyProof` variant does fail with the malformed-proof error, but its
trace starts with the wallet-derivation event — the wallet is derived before
the proof file is even opened, refuting the claim that the failure happens
before any wallet derivation. -/
theorem verifyProofV1_wallet_before_load :
    verifyProofV1 envEmptySignatures samplePath =
      (Except.error (("Failed to load proof: Invalid proof: missing signatures").data),
       [Event.walletDerive, Event.fsExistsCheck samplePath, Event.fsRead samplePath])
    ∧ Event.walletDerive ∈ (verifyProofV1 envEmptySignatures samplePath).2 := by
  constructor
  · rfl
  · decide

/-- Helper: under an existing, parsing proof file whose content has a missing
or empty signatures array, `loadProofM` fails with the malformed-proof
error having touched only the file system. -/
theorem loadProofM_malformed (env : VerifyEnv) (proofPath : Str) (pj : ProofJson)
    (hf : env.fileExists = true) (hp : env.fileParse = .ok pj)
    (hs : pj.signatures = none ∨ pj.signatures = some []) :
    loadProofM env proofPath =
      (Except.error (("Failed to load proof: Invalid proof: missing signatures").data),
       [Event.fsExistsCheck proofPath, Event.fsRead proofPath]) := by
  unfold loadProofM
  rw [if_neg (by rw [hf]; exact (by decide : ¬ (true = false)))]
  rcases hs with h | h
  · simp only [hp, h]
  · simp only [hp, h]

/-- C5 (amended): for every proof file that exists and parses to a content
with a missing or empty signatures array, both `verifyProof` variants fail
with the malformed-proof error and neither performs any network call; the
second variant fails before any wallet derivation, whereas the first variant
derives the wallet before loading the proof (see the counterexample). -/
theorem verifyProof_malformed_signatures (env : VerifyEnv) (proofPath : Str)
    (pj : ProofJson) (k : Str) (hw : env.wallet = .ok k)
    (hf : env.fileExists = true) (hp : env.fileParse = .ok pj)
    (hs : pj.signatures = none ∨ pj.signatures = some []) :
    (verifyProofV1 env proofPath).1 =
      Except.error (("Failed to load proof: Invalid proof: missing signatures").data)
    ∧ (∀ e ∈ (verifyProofV1 env proofPath).2, isNetworkEvent e = false)
    ∧ (verifyProofV2 env proofPath).1 =
      Except.error (("Failed to load proof: Invalid proof: missing signatures").data)
    ∧ (∀ e ∈ (verifyProofV2 env proofPath).2, isNetworkEvent e = false)
    ∧ Event.walletDerive ∉ (verifyProofV2 env proofPath).2 := by
  have hl := loadProofM_malformed env proofPath pj hf hp hs
  have h1 : verifyProofV1 env proofPath =
      (Except.error (("Failed to load proof: Invalid proof: missing signatures").data),
       [Event.walletDerive, Event.fsExistsCheck proofPath, Event.fsRead proofPath]) := by
    simp only [verifyProofV1, hw, hl]
  have h2 : verifyProofV2 env proofPath =
      (Except.error (("Failed to load proof: Invalid proof: missing signatures").data),
       [Event.fsExistsCheck proofPath, Event.fsRead proofPath]) := by
    simp only [verifyProofV2, hl]
  refine ⟨?_, ?_, ?_, ?_, ?_⟩
  · rw [h1]
  · rw [h1]
    intro e he
    simp only [List.mem_cons, List.not_mem_nil, or_false] at he
    rcases he with rfl | rfl | rfl <;> rfl
  · rw [h2]
  · rw [h2]
    intro e he
    simp only [List.mem_cons, List.not_mem_nil, or_false] at he
    rcases he with rfl | rfl <;> rfl
  · rw [h2]
    intro hmem
    simp at hmem

/-- C5 witness: on the concrete empty-signatures environment the second
variant fails with the malformed-proof error without deriving a wallet. -/
theorem verifyProof_malformed_signatures_witness :
    (verifyProofV2 envEmptySignatures samplePath).1 =
      Except.error (("Failed to load proof: Invalid proof: missing signatures").data)
    ∧ Event.walletDerive ∉ (verifyProofV2 envEmptySignatures samplePath).2 :=
  ⟨(verifyProof_malformed_signatures envEmptySignatures samplePath emptySigJson
      (("GPUB").data) rfl rfl rfl (Or.inr rfl)).2.2.1,
   (verifyProof_malformed_signatures envEmptySignatures samplePath emptySigJson
      (("GPUB").data) rfl rfl rfl (Or.inr rfl)).2.2.2.2⟩

/-- C6: whenever the output path validates and the client constructor
succeeds, a proof type outside the five supported identifiers makes
`requestProof` fail with the unknown-proof-type error — which names the
supplied identifier and lists the valid choices — and the attestation
service is never called. -/
theorem requestProof_unknown_source {α : Type} (env : RequestEnv α)
    (outputPath proofType : Str)
    (hv : validateOutputPath env.fs outputPath = .ok ())
    (hc : env.client = .ok ())
    (ht : proofType ∉ [("stellar").data, ("trading-economics").data, ("forbes").data,
      ("accuweather").data, ("goal").data]) :
    (requestProof env outputPath proofType).1 = .error (unknownProofTypeMsg proofType)
    ∧ ∀ u, Event.zkFetchCall u ∉ (requestProof env outputPath proofType).2 := by
  have h1 : ¬ proofType = ("stellar").data := fun h => ht (by rw [h]; simp)
  have h2 : ¬ proofType = ("trading-economics").data := fun h => ht (by rw [h]; simp)
  have h3 : ¬ proofType = ("forbes").data := fun h => ht (by rw [h]; simp)
  have h4 : ¬ proofType = ("accuweather").data := fun h => ht (by rw [h]; simp)
  have h5 : ¬ proofType = ("goal").data := fun h => ht (by rw [h]; simp)
  have hreq : requestProof env outputPath proofType =
      (.error (unknownProofTypeMsg proofType), []) := by
    unfold requestProof
    rw [hv, hc, if_neg h1, if_neg h2, if_neg h3, if_neg h4, if_neg h5]
  rw [hreq]
  exact ⟨rfl, fun u hmem => by cases hmem⟩

/-- A file system where every path exists and is a directory. -/
def sampleFS : FS := ⟨fun _ => true, fun _ => true⟩

/-- A fully succeeding request environment over token attestations. -/
def sampleRequestEnv : RequestEnv Nat := ⟨sampleFS, .ok (), fun _ => .ok 0, .ok ()⟩

/-- C6 witness: requesting the unsupported identifier bogus fails with the
unknown-proof-type error and the trace holds no attestation-service call. -/
theorem requestProof_unknown_source_witness :
    (requestProof sampleRequestEnv samplePath (("bogus").data)).1 =
      Except.error (unknownProofTypeMsg (("bogus").data))
    ∧ ∀ u, Event.zkFetchCall u ∉
        (requestProof sampleRequestEnv samplePath (("bogus").data)).2 :=
  requestProof_unknown_source sampleRequestEnv samplePath (("bogus").data)
    rfl rfl (by decide)

/-- C7: for every nonempty output path whose parent directory does not exist
or is not a directory, `requestProof` fails with the matching
invalid-output-path error naming the directory, with an empty trace — so
before any attestation-service call and before any file write. -/
theorem requestProof_invalid_output_path {α : Type} (env : RequestEnv α)
    (outputPath proofType : Str) (hne : ¬ outputPath = [])
    (hbad : env.fs.pathExists (dirname outputPath) = false ∨
      env.fs.isDirectory (dirname outputPath) = false) :
    (requestProof env outputPath proofType).1 =
      Except.error (if env.fs.pathExists (dirname outputPath) = false
        then (("Directory does not exist: ").data) ++ dirname outputPath
        else (("Path is not a directory: ").data) ++ dirname outputPath)
    ∧ (requestProof env outputPath proofType).2 = []
    ∧ (∀ u, Event.zkFetchCall u ∉ (requestProof env outputPath proofType).2)
    ∧ (∀ q, Event.fsWrite q ∉ (requestProof env outputPath proofType).2) := by
  have hval : validateOutputPath env.fs outputPath =
      .error (if env.fs.pathExists (dirname outputPath) = false
        then (("Directory does not exist: ").data) ++ dirname outputPath
        else (("Path is not a directory: ").data) ++ dirname outputPath) := by
    unfold validateOutputPath
    rw [if_neg hne]
    by_cases hpe : env.fs.pathExists (dirname outputPath) = false
    · rw [if_pos hpe, if_pos hpe]
    · have hdir : env.fs.isDirectory (dirname outputPath) = false :=
        hbad.resolve_left hpe
      rw [if_neg hpe, if_pos hdir, if_neg hpe]
  have hreq : requestProof env outputPath proofType =
      (.error (if env.fs.pathExists (dirname outputPath) = false
        then (("Directory does not exist: ").data) ++ dirname outputPath
        else (("Path is not a directory: ").data) ++ dirname outputPath), []) := by
    unfold requestProof
    rw [hval]
  rw [hreq]
  refine ⟨rfl, rfl, ?_, ?_⟩
  · intro u hmem
    cases hmem
  · intro q hmem
    cases hmem

/-- A file system where no path exists. -/
def missingFS : FS := ⟨fun _ => false, fun _ => false⟩

/-- A request environment over a file system with no directories. -/
def missingDirRequestEnv : RequestEnv Nat := ⟨missingFS, .ok (), fun _ => .ok 0, .ok ()⟩

/-- C7 witness: with a nonexistent parent directory the request fails with
the directory-does-not-exist error and performs no call and no write. -/
theorem requestProof_invalid_output_path_witness :
    (requestProof missingDirRequestEnv samplePath (("stellar").data)).1 =
      Except.error ((("Directory does not exist: ").data) ++ dirname samplePath)
    ∧ (requestProof missingDirRequestEnv samplePath (("stellar").data)).2 = [] := by
  have h := requestProof_invalid_output_path missingDirRequestEnv samplePath
    (("stellar").data) (by decide) (Or.inl rfl)
  refine ⟨?_, h.2.1⟩
  rw [h.1, if_pos (show missingDirRequestEnv.fs.pathExists (dirname samplePath) = false
    from rfl)]

/-- Helper: a successful `bytesN` certifies the width of its buffer. -/
theorem bytesN_ok_length {b : List Nat} {n : Nat} {a : ScVal}
    (h : bytesN b n = Except.ok a) : b.length = n := by
  unfold bytesN at h
  by_cases hb : b.length ≠ n
  · rw [if_pos hb] at h
    exact Except.noConfusion h
  · exact not_not.mp hb

/-- C10: `bytesN` rejects every buffer whose width differs from the required
one with the expected-bytes error, and consequently the second submitter
builds or sends a verification transaction only when the message digest is
exactly 32 bytes and the truncated signature argument is exactly 64 bytes. -/
theorem bytesN_spec :
    (∀ (b : List Nat) (n : Nat), b.length ≠ n →
       bytesN b n = Except.error ((("Expected ").data) ++ (Nat.repr n).data ++
         ((" bytes, got ").data) ++ (Nat.repr b.length).data))
    ∧ (∀ (env : VerifyEnv) (pd : Prepared),
       ((∃ a, Event.buildTx a ∈ (submitVerificationTransactionV2 env pd).2) ∨
        Event.netSendTx ∈ (submitVerificationTransactionV2 env pd).2) →
       pd.message.length = 32 ∧ (pd.signature.take 64).length = 64) := by
  constructor
  · intro b n h
    unfold bytesN
    rw [if_pos h]
  · intro env pd h
    cases hga : env.getAccount with
    | error e =>
      simp only [submitVerificationTransactionV2, hga] at h
      rcases h with ⟨a, ha⟩ | hsend
      · simp at ha
      · simp at hsend
    | ok u =>
      cases hb1 : bytesN pd.message 32 with
      | error e1 =>
        simp only [submitVerificationTransactionV2, hga, hb1] at h
        rcases h with ⟨a, ha⟩ | hsend
        · simp at ha
        · simp at hsend
      | ok a1 =>
        cases hb2 : bytesN (pd.signature.take 64) 64 with
        | error e2 =>
          simp only [submitVerificationTransactionV2, hga, hb1, hb2] at h
          rcases h with ⟨a, ha⟩ | hsend
          · simp at ha
          · simp at hsend
        | ok a2 =>
          exact ⟨bytesN_ok_length hb1, bytesN_ok_length hb2⟩

/-- A fully succeeding verification environment. -/
def sampleSubmitEnv : VerifyEnv :=
  { wallet := .ok (("G").data)
    fileExists := true
    fileParse := .ok ⟨some [("s").data]⟩
    transform := fun _ => ⟨none⟩
    keccak256 := fun _ => sampleKeccakHex
    getAccount := .ok ()
    prepareTx := .ok ()
    sendTx := .ok (("tx").data) }

/-- A correctly sized verification payload. -/
def samplePrepared : Prepared := ⟨List.replicate 32 0, List.replicate 64 0, some 0⟩

/-- C10 witness: a one-byte buffer is rejected when 32 bytes are expected,
and on a run that reaches the send event the payload sizes are certified. -/
theorem bytesN_spec_witness :
    bytesN [0] 32 = Except.error ((("Expected ").data) ++ (Nat.repr 32).data ++
      ((" bytes, got ").data) ++ (Nat.repr ([0] : List Nat).length).data)
    ∧ (samplePrepared.message.length = 32
       ∧ (samplePrepared.signature.take 64).length = 64) :=
  ⟨bytesN_spec.1 [0] 32 (by decide),
   bytesN_spec.2 sampleSubmitEnv samplePrepared (Or.inr (by decide))⟩
